import Mathlib

/-!
Verification development for the dvrpc-node proof engine.

This file gives a shallow embedding, in Lean 4, of the Merkle Patricia Trie
proof verifier of the gateway (src/proof/mod.rs), its embedded RLP decoder,
the hex-prefix path codec, the account and storage orchestration, and the
post-parse control flow of the eth_getBalance handler (src/rpc/handlers.rs).
Bytes are modelled as natural numbers below 256, byte strings as lists,
B256 values as 32-element lists, U256 values as natural numbers, and Rust
Result values as Except.  Keccak-256 (the sha3 crate primitive used by the
code) is implemented executably over Nat so that concrete runs can be
evaluated inside the kernel.  Rust panics reachable from untrusted input
are modelled by a distinguished error constructor, separate from the
errors the code itself constructs with bail.
-/

set_option maxRecDepth 1000000

/-! ## Keccak-256 (Ethereum variant, multi-rate padding byte 0x01) -/

/-- Rotate a 64-bit lane left by n bits. -/
def rotl64 (x n : Nat) : Nat :=
  ((x <<< n) % 2 ^ 64) ||| (x >>> (64 - n))

/-- Round constants of Keccak-f[1600], grouped four per row. -/
def keccakRCRows : List (List Nat) :=
  [[0x0000000000000001, 0x0000000000008082, 0x800000000000808a, 0x8000000080008000]
  ,[0x000000000000808b, 0x0000000080000001, 0x8000000080008081, 0x8000000000008009]
  ,[0x000000000000008a, 0x0000000000000088, 0x0000000080008009, 0x000000008000000a]
  ,[0x000000008000808b, 0x800000000000008b, 0x8000000000008089, 0x8000000000008003]
  ,[0x8000000000008002, 0x8000000000000080, 0x000000000000800a, 0x800000008000000a]
  ,[0x8000000080008081, 0x8000000000008080, 0x0000000080000001, 0x8000000080008008]]

/-- Round constants of Keccak-f[1600]. -/
def keccakRC : List Nat :=
  keccakRCRows.flatten

/-- Rotation offsets, indexed by x + 5 * y, one row per y. -/
def keccakRotRows : List (List Nat) :=
  [[0, 1, 62, 28, 27]
  ,[36, 44, 6, 55, 20]
  ,[3, 10, 43, 25, 39]
  ,[41, 45, 15, 21, 8]
  ,[18, 2, 61, 56, 14]]

/-- Rotation offsets as a flat 25-entry table. -/
def keccakRot : List Nat :=
  keccakRotRows.flatten

/-- Theta step of the Keccak round function. -/
def keccakTheta (A : List Nat) : List Nat :=
  let C := (List.range 5).map (fun x =>
    A.getD x 0 ^^^ A.getD (x + 5) 0 ^^^ A.getD (x + 10) 0 ^^^ A.getD (x + 15) 0 ^^^ A.getD (x + 20) 0)
  let D := (List.range 5).map (fun x =>
    C.getD ((x + 4) % 5) 0 ^^^ rotl64 (C.getD ((x + 1) % 5) 0) 1)
  (List.range 25).map (fun j => A.getD j 0 ^^^ D.getD (j % 5) 0)

/-- Combined rho and pi steps. -/
def keccakRhoPi (A : List Nat) : List Nat :=
  (List.range 25).map (fun j =>
    let xp := j % 5
    let yp := j / 5
    let x := (xp + 3 * yp) % 5
    let y := xp
    rotl64 (A.getD (x + 5 * y) 0) (keccakRot.getD (x + 5 * y) 0))

/-- Chi step. -/
def keccakChi (B : List Nat) : List Nat :=
  (List.range 25).map (fun j =>
    let x := j % 5
    let y := j / 5
    B.getD j 0 ^^^ ((B.getD ((x + 1) % 5 + 5 * y) 0 ^^^ (2 ^ 64 - 1)) &&& B.getD ((x + 2) % 5 + 5 * y) 0))

/-- One Keccak round: theta, rho, pi, chi, then iota with constant rc. -/
def keccakRound (A : List Nat) (rc : Nat) : List Nat :=
  let B := keccakChi (keccakRhoPi (keccakTheta A))
  (B.getD 0 0 ^^^ rc) :: B.drop 1

/-- Keccak-f[1600] permutation, 24 rounds. -/
def keccakF (A : List Nat) : List Nat :=
  keccakRC.foldl keccakRound A

/-- Multi-rate padding with domain byte 0x01 (Keccak, not SHA3), rate 136 bytes. -/
def keccakPad (msg : List Nat) : List Nat :=
  let padLen := 136 - msg.length % 136
  if padLen = 1 then msg ++ [0x81]
  else msg ++ [0x01] ++ List.replicate (padLen - 2) 0 ++ [0x80]

/-- Little-endian bytes to a 64-bit lane. -/
def bytesToLane (bs : List Nat) : Nat :=
  bs.foldr (fun b acc => b + 256 * acc) 0

/-- Absorb one 136-byte block into the sponge state and permute. -/
def absorbBlock (A block : List Nat) : List Nat :=
  keccakF ((List.range 25).map (fun j =>
    if j < 17 then A.getD j 0 ^^^ bytesToLane ((block.drop (8 * j)).take 8)
    else A.getD j 0))

/-- Absorb n consecutive 136-byte blocks of the padded message. -/
def absorbChunks : Nat → List Nat → List Nat → List Nat
  | 0, A, _ => A
  | n + 1, A, msg => absorbChunks n (absorbBlock A (msg.take 136)) (msg.drop 136)

/-- Little-endian bytes of a 64-bit lane. -/
def laneBytes (x : Nat) : List Nat :=
  (List.range 8).map (fun j => (x >>> (8 * j)) % 256)

/-- Keccak-256 of a byte string: the keccak256 helper of src/proof/mod.rs
(a thin wrapper around the sha3 crate), yielding a 32-byte digest. -/
def keccak256 (msg : List Nat) : List Nat :=
  let padded := keccakPad msg
  let A := absorbChunks (padded.length / 136) (List.replicate 25 0) padded
  ((A.take 4).map laneBytes).flatten

/-! ## Constants of src/proof/mod.rs -/

/-- Empty account code hash, keccak256 of the empty byte string. -/
def EMPTY_CODE_HASH : List Nat :=
  [0xc5, 0xd2, 0x46, 0x01, 0x86, 0xf7, 0x23, 0x3c, 0x92, 0x7e, 0x7d, 0xb2, 0xdc, 0xc7, 0x03, 0xc0,
   0xe5, 0x00, 0xb6, 0x53, 0xca, 0x82, 0x27, 0x3b, 0x7b, 0xfa, 0xd8, 0x04, 0x5d, 0x85, 0xa4, 0x70]

/-- Empty trie root hash, keccak256 of the RLP encoding 0x80 of the empty string. -/
def EMPTY_ROOT_HASH : List Nat :=
  [0x56, 0xe8, 0x1f, 0x17, 0x1b, 0xcc, 0x55, 0xa6, 0xff, 0x83, 0x45, 0xe6, 0x92, 0xc0, 0xf8, 0x6e,
   0x5b, 0x48, 0xe0, 0x1b, 0x99, 0x6c, 0xad, 0xc0, 0x01, 0x62, 0x2f, 0xb5, 0xe3, 0x63, 0xb4, 0x21]

/-! ## RLP decoder (src/proof/mod.rs, decode_rlp_length / decode_rlp_item / decode_rlp_list) -/

/-- Runtime outcome tag: rerr models an error built by the Rust code with
bail (an Err value), crash models a reachable Rust panic (an abort that is
not an Err value: an arithmetic-overflow or slice-bounds or conversion
panic). -/
inductive RunErr where
  | rerr (msg : String)
  | crash (msg : String)
deriving DecidableEq

/-- Big-endian value of a byte string (the result Rust computes by repeated
shift-left-by-8 and bitwise or; the shift is guarded so it never wraps). -/
def beNat (l : List Nat) : Nat :=
  l.foldl (fun acc b => acc * 256 + b) 0

/-- bytes_to_usize of src/proof/mod.rs: big-endian bytes to a 64-bit machine
word.  The Rust loop computes checked_shl(8) followed by bitwise or; the shift
amount 8 is below the word width so checked_shl never rejects, and the length
guard keeps every intermediate below 2 to the 64. -/
def bytes_to_usize (bytes : List Nat) : Except String Nat :=
  if 8 < bytes.length then .error "Length too large for usize"
  else .ok (bytes.foldl (fun acc b => ((acc <<< 8) % 2 ^ 64) ||| b) 0)

/-- decode_rlp_length of src/proof/mod.rs: decode the RLP length prefix of
data, returning the content slice and the total encoded length.  The Rust
code computes 1 + len_bytes + len in usize; when that sum does not fit in 64
bits (an 8-byte length field close to 2 to the 64) the program panics: a
debug build aborts on the addition overflow, a release build wraps, passes
the truncation compare (the wrapped sum is at most 8 while the input holds
at least 9 bytes) and aborts on the reversed slice bounds.  Both builds
panic, modelled as the crash outcome before the truncation check. -/
def decode_rlp_length (data : List Nat) : Except RunErr (List Nat × Nat) :=
  match data with
  | [] => .error (.rerr "Empty RLP data")
  | pfx :: _ =>
    if pfx ≤ 0x7f then
      .ok (data.take 1, 1)
    else if pfx ≤ 0xb7 then
      let len := pfx - 0x80
      if data.length < 1 + len then .error (.rerr "RLP string truncated")
      else .ok ((data.drop 1).take len, 1 + len)
    else if pfx ≤ 0xbf then
      let lenBytes := pfx - 0xb7
      if data.length < 1 + lenBytes then .error (.rerr "RLP length truncated")
      else
        match bytes_to_usize ((data.drop 1).take lenBytes) with
        | .error e => .error (.rerr e)
        | .ok len =>
          if 2 ^ 64 ≤ 1 + lenBytes + len then .error (.crash "usize overflow in RLP length")
          else if data.length < 1 + lenBytes + len then .error (.rerr "RLP string truncated")
          else .ok ((data.drop (1 + lenBytes)).take len, 1 + lenBytes + len)
    else if pfx ≤ 0xf7 then
      let len := pfx - 0xc0
      if data.length < 1 + len then .error (.rerr "RLP list truncated")
      else .ok ((data.drop 1).take len, 1 + len)
    else
      let lenBytes := pfx - 0xf7
      if data.length < 1 + lenBytes then .error (.rerr "RLP length truncated")
      else
        match bytes_to_usize ((data.drop 1).take lenBytes) with
        | .error e => .error (.rerr e)
        | .ok len =>
          if 2 ^ 64 ≤ 1 + lenBytes + len then .error (.crash "usize overflow in RLP length")
          else if data.length < 1 + lenBytes + len then .error (.rerr "RLP list truncated")
          else .ok ((data.drop (1 + lenBytes)).take len, 1 + lenBytes + len)

/-- decode_rlp_item of src/proof/mod.rs: decode a single RLP item, returning
its content (for lists, the whole encoded list) and the bytes consumed.  As
in decode_rlp_length, the usize sum 1 + len_bytes + len overflows when it
does not fit in 64 bits.  In the long-string branch both build modes panic
(debug: addition overflow; release: wrapped compare passes, then the
reversed slice bounds abort).  In the long-list branch a debug build panics
on the addition while a release build would return a wrapped, meaningless
short item; the model takes the overflow itself as the failure (the debug
semantics), the crash outcome, before the truncation check. -/
def decode_rlp_item (data : List Nat) : Except RunErr (List Nat × Nat) :=
  match data with
  | [] => .error (.rerr "Empty RLP item")
  | pfx :: _ =>
    if pfx ≤ 0x7f then
      .ok ([pfx], 1)
    else if pfx ≤ 0xb7 then
      let len := pfx - 0x80
      if data.length < 1 + len then .error (.rerr "RLP item truncated")
      else .ok ((data.drop 1).take len, 1 + len)
    else if pfx ≤ 0xbf then
      let lenBytes := pfx - 0xb7
      if data.length < 1 + lenBytes then .error (.rerr "RLP length truncated")
      else
        match bytes_to_usize ((data.drop 1).take lenBytes) with
        | .error e => .error (.rerr e)
        | .ok len =>
          if 2 ^ 64 ≤ 1 + lenBytes + len then .error (.crash "usize overflow in RLP length")
          else if data.length < 1 + lenBytes + len then .error (.rerr "RLP item truncated")
          else .ok ((data.drop (1 + lenBytes)).take len, 1 + lenBytes + len)
    else if pfx ≤ 0xf7 then
      let len := pfx - 0xc0
      if data.length < 1 + len then .error (.rerr "RLP list truncated")
      else .ok (data.take (1 + len), 1 + len)
    else
      let lenBytes := pfx - 0xf7
      if data.length < 1 + lenBytes then .error (.rerr "RLP length truncated")
      else
        match bytes_to_usize ((data.drop 1).take lenBytes) with
        | .error e => .error (.rerr e)
        | .ok len =>
          if 2 ^ 64 ≤ 1 + lenBytes + len then .error (.crash "usize overflow in RLP length")
          else if data.length < 1 + lenBytes + len then .error (.rerr "RLP list truncated")
          else .ok (data.take (1 + lenBytes + len), 1 + lenBytes + len)

/-- The while loop of decode_rlp_list: repeatedly decode one item and advance
by the bytes consumed.  Each successful item consumes at least one byte, so a
fuel equal to the remaining length always suffices; the fuel-exhausted branch
is unreachable. -/
def decodeItemsAux : Nat → List Nat → Except RunErr (List (List Nat))
  | _, [] => .ok []
  | 0, _ :: _ => .error (.rerr "RLP item made no progress")
  | fuel + 1, d =>
    match decode_rlp_item d with
    | .error e => .error e
    | .ok (item, itemLen) =>
      match decodeItemsAux fuel (d.drop itemLen) with
      | .error e => .error e
      | .ok rest => .ok (item :: rest)

/-- decode_rlp_list of src/proof/mod.rs: decode an RLP list into its items.
Empty input decodes to an empty item list. -/
def decode_rlp_list (data : List Nat) : Except RunErr (List (List Nat)) :=
  if data = [] then .ok []
  else
    match decode_rlp_length data with
    | .error e => .error e
    | .ok (listData, _) => decodeItemsAux listData.length listData

/-! ## Hex-prefix path and nibbles (src/proof/mod.rs) -/

/-- decode_hp_path of src/proof/mod.rs: decode a hex-prefix encoded path,
returning the path nibbles and the leaf flag. -/
def decode_hp_path (encoded : List Nat) : Except RunErr (List Nat × Bool) :=
  match encoded with
  | [] => .ok ([], false)
  | b0 :: rest =>
    let firstNibble := b0 / 16
    let isLeaf : Bool := decide (2 ≤ firstNibble)
    let isOdd : Bool := decide (firstNibble % 2 = 1)
    let nibbles :=
      (if isOdd then [b0 % 16] else []) ++ (rest.map (fun b => [b / 16, b % 16])).flatten
    .ok (nibbles, isLeaf)

/-- bytes_to_nibbles of src/proof/mod.rs: expand each byte into its high and
low nibble, in order. -/
def bytes_to_nibbles (bytes : List Nat) : List Nat :=
  (bytes.map (fun b => [b / 16, b % 16])).flatten

/-! ## MPT walker (src/proof/mod.rs, verify_mpt_proof / process_leaf_extension) -/

/-- process_leaf_extension of src/proof/mod.rs: process a leaf or extension
node reached as an embedded child at the end of the proof. -/
def process_leaf_extension (items : List (List Nat)) (keyNibbles : List Nat) (keyIndex : Nat) :
    Except RunErr (Option (List Nat)) :=
  if items.length ≠ 2 then .error (.rerr "Invalid embedded node")
  else
    match decode_hp_path (items.getD 0 []) with
    | .error e => .error e
    | .ok (prefixNibbles, isLeaf) =>
      let remainingKey := keyNibbles.drop keyIndex
      if isLeaf then
        if prefixNibbles = remainingKey then .ok (some (items.getD 1 []))
        else .ok none
      else .error (.rerr "Incomplete proof - extension node at end")

/-- The node loop of verify_mpt_proof, one step per proof entry.  The
arguments are the remaining proof entries, the index i of the current entry
in the original proof, the key nibble cursor, and the currently expected
hash.  Child lookups use getD; for byte-valued keys every nibble is below 16
so the default is never read, matching the in-bounds Rust indexing. -/
def mptWalk (keyNibbles : List Nat) :
    List (List Nat) → Nat → Nat → List Nat → Except RunErr (Option (List Nat))
  | [], _, _, _ => .error (.rerr "Incomplete proof - did not reach a leaf")
  | node :: rest, i, keyIndex, expectedHash =>
    let nodeHash := keccak256 node
    if nodeHash ≠ expectedHash ∧ 32 ≤ node.length then
      .error (.rerr "Node hash mismatch")
    else if node.length < 32 ∧ 0 < i ∧ nodeHash ≠ expectedHash then
      .error (.rerr "Invalid embedded node")
    else
      match decode_rlp_list node with
      | .error e => .error e
      | .ok items =>
        if items.length = 17 then
          if keyNibbles.length ≤ keyIndex then
            if items.getD 16 [] = [] then .ok none
            else .ok (some (items.getD 16 []))
          else
            let nibble := keyNibbles.getD keyIndex 0
            let child := items.getD nibble []
            if child = [] then .ok none
            else if child.length = 32 then
              mptWalk keyNibbles rest (i + 1) (keyIndex + 1) child
            else if child.length < 32 then
              match rest with
              | next :: _ => mptWalk keyNibbles rest (i + 1) (keyIndex + 1) (keccak256 next)
              | [] =>
                match decode_rlp_list child with
                | .error e => .error e
                | .ok embeddedItems => process_leaf_extension embeddedItems keyNibbles (keyIndex + 1)
            else
              mptWalk keyNibbles rest (i + 1) (keyIndex + 1) expectedHash
        else if items.length = 2 then
          match decode_hp_path (items.getD 0 []) with
          | .error e => .error e
          | .ok (prefixNibbles, isLeaf) =>
            let remainingKey := keyNibbles.drop keyIndex
            if isLeaf then
              if prefixNibbles = remainingKey then .ok (some (items.getD 1 []))
              else .ok none
            else
              if remainingKey.length < prefixNibbles.length then .ok none
              else if remainingKey.take prefixNibbles.length ≠ prefixNibbles then .ok none
              else
                let keyIndex2 := keyIndex + prefixNibbles.length
                if (items.getD 1 []).length = 32 then
                  mptWalk keyNibbles rest (i + 1) keyIndex2 (items.getD 1 [])
                else
                  match decode_rlp_list (items.getD 1 []) with
                  | .error e => .error e
                  | .ok embeddedItems => process_leaf_extension embeddedItems keyNibbles keyIndex2
        else .error (.rerr "Invalid node item count")

/-- verify_mpt_proof of src/proof/mod.rs: verify a Merkle Patricia Trie proof
for key under root, returning the value for inclusion, none for proven
absence, or an error when no verdict can be authenticated. -/
def verify_mpt_proof (root key : List Nat) (pf : List (List Nat)) :
    Except RunErr (Option (List Nat)) :=
  if pf = [] then
    if root = EMPTY_ROOT_HASH then .ok none
    else .error (.rerr "Empty proof for non-empty root")
  else
    mptWalk (bytes_to_nibbles key) pf 0 0 root

/-! ## Account state decoding (alloy-rlp derived Decodable for AccountState) -/

/-- RLP-decoded account state of src/proof/mod.rs. -/
structure AccountState where
  nonce : Nat
  balance : Nat
  storage_root : List Nat
  code_hash : List Nat
deriving DecidableEq

/-- Header decoding of the alloy-rlp crate: returns the list flag, the payload
length and the buffer after the header, enforcing canonical encodings
(no leading zero in a long length, non-canonical single bytes and
non-canonical sizes rejected, payloads bounds-checked). -/
def rlpHeaderDecode (buf : List Nat) : Except String (Bool × Nat × List Nat) :=
  match buf with
  | [] => .error "InputTooShort"
  | b :: rest =>
    if b ≤ 0x7f then
      if buf.length < 1 then .error "InputTooShort" else .ok (false, 1, buf)
    else if b ≤ 0xb7 then
      let len := b - 0x80
      if len = 1 ∧ rest.getD 0 0 < 0x80 then
        if rest.length = 0 then .error "InputTooShort"
        else .error "NonCanonicalSingleByte"
      else if rest.length < len then .error "InputTooShort"
      else .ok (false, len, rest)
    else if b ≤ 0xbf then
      let lenOfLen := b - 0xb7
      if rest.length < lenOfLen then .error "InputTooShort"
      else if rest.getD 0 0 = 0 then .error "LeadingZero"
      else
        let len := beNat (rest.take lenOfLen)
        if len < 56 then .error "NonCanonicalSize"
        else if (rest.drop lenOfLen).length < len then .error "InputTooShort"
        else .ok (false, len, rest.drop lenOfLen)
    else if b ≤ 0xf7 then
      let len := b - 0xc0
      if rest.length < len then .error "InputTooShort"
      else .ok (true, len, rest)
    else
      let lenOfLen := b - 0xf7
      if rest.length < lenOfLen then .error "InputTooShort"
      else if rest.getD 0 0 = 0 then .error "LeadingZero"
      else
        let len := beNat (rest.take lenOfLen)
        if len < 56 then .error "NonCanonicalSize"
        else if (rest.drop lenOfLen).length < len then .error "InputTooShort"
        else .ok (true, len, rest.drop lenOfLen)

/-- String payload decoding of alloy-rlp: header must not be a list; returns
the payload and the rest of the buffer. -/
def rlpDecodeBytes (buf : List Nat) : Except String (List Nat × List Nat) :=
  match rlpHeaderDecode buf with
  | .error e => .error e
  | .ok (isList, len, rest) =>
    if isList then .error "UnexpectedList"
    else .ok (rest.take len, rest.drop len)

/-- Unsigned integer decoding of alloy-rlp with a maximum width in bytes:
rejects over-wide payloads and leading zeroes. -/
def rlpDecodeUint (maxBytes : Nat) (buf : List Nat) : Except String (Nat × List Nat) :=
  match rlpDecodeBytes buf with
  | .error e => .error e
  | .ok (payload, rest) =>
    if maxBytes < payload.length then .error "Overflow"
    else
      match payload with
      | [] => .ok (0, rest)
      | 0 :: _ => .error "LeadingZero"
      | _ => .ok (beNat payload, rest)

/-- Fixed 32-byte value decoding of alloy-rlp. -/
def rlpDecodeB256 (buf : List Nat) : Except String (List Nat × List Nat) :=
  match rlpDecodeBytes buf with
  | .error e => .error e
  | .ok (payload, rest) =>
    if payload.length = 32 then .ok (payload, rest)
    else .error "UnexpectedLength"

/-- The derived alloy-rlp Decodable for AccountState: a list header followed
by nonce (at most 8 bytes), balance (at most 32 bytes), storage root and code
hash (exactly 32 bytes each), consuming the payload exactly. -/
def AccountState.decode (buf : List Nat) : Except String AccountState :=
  match rlpHeaderDecode buf with
  | .error e => .error e
  | .ok (isList, payloadLen, rest) =>
    if ¬ isList then .error "UnexpectedString"
    else
      let startedLen := rest.length
      match rlpDecodeUint 8 rest with
      | .error e => .error e
      | .ok (nonce, r1) =>
        match rlpDecodeUint 32 r1 with
        | .error e => .error e
        | .ok (balance, r2) =>
          match rlpDecodeB256 r2 with
          | .error e => .error e
          | .ok (sr, r3) =>
            match rlpDecodeB256 r3 with
            | .error e => .error e
            | .ok (ch, r4) =>
              if startedLen - r4.length ≠ payloadLen then .error "ListLengthMismatch"
              else .ok ⟨nonce, balance, sr, ch⟩

/-! ## Proof data types (src/types.rs) -/

/-- Storage slot proof of src/types.rs. -/
structure StorageProofData where
  key : List Nat
  value : Nat
  proof : List (List Nat)

/-- Account proof data of src/types.rs (EIP-1186 response).  The nonce field
is an alloy U64, so its conversion to u64 in the verifier is exact. -/
structure ProofData where
  address : List Nat
  balance : Nat
  code_hash : List Nat
  nonce : Nat
  storage_hash : List Nat
  account_proof : List (List Nat)
  storage_proof : List StorageProofData

/-! ## Orchestrator (src/proof/mod.rs, ProofGenerator) -/

/-- U256::from_be_slice of the alloy primitives: converts big-endian bytes,
aborting (panic) when the value does not fit in 256 bits. -/
def u256_from_be_slice (l : List Nat) : Except RunErr Nat :=
  if beNat l < 2 ^ 256 then .ok (beNat l)
  else .error (.crash "U256 from_be_slice overflow")

/-- decode_storage_value of src/proof/mod.rs: decode an RLP-encoded storage
value to a U256, falling back to raw bytes when the first byte is not a
short-string prefix. -/
def decode_storage_value (data : List Nat) : Except RunErr Nat :=
  match data with
  | [] => .ok 0
  | b :: _ =>
    if b ≤ 0x7f then .ok b
    else if b ≤ 0xb7 then
      let len := b - 0x80
      if len = 0 then .ok 0
      else if data.length < 1 + len then .error (.rerr "Truncated storage value")
      else u256_from_be_slice ((data.drop 1).take len)
    else u256_from_be_slice data

/-- verify_account_proof of src/proof/mod.rs (ProofGenerator): verify an
account proof against a state root.  Mismatches and undecodable account
records yield false; broken proofs propagate as errors. -/
def verify_account_proof (state_root : List Nat) (pf : ProofData) : Except RunErr Bool :=
  if pf.account_proof = [] then .ok false
  else
    let key := keccak256 pf.address
    match verify_mpt_proof state_root key pf.account_proof with
    | .error e => .error e
    | .ok none =>
      if pf.balance = 0 ∧ pf.nonce = 0 ∧ pf.code_hash = EMPTY_CODE_HASH
          ∧ pf.storage_hash = EMPTY_ROOT_HASH then .ok true
      else .ok false
    | .ok (some value) =>
      match AccountState.decode value with
      | .error _ => .ok false
      | .ok account =>
        if account.nonce ≠ pf.nonce then .ok false
        else if account.balance ≠ pf.balance then .ok false
        else if account.storage_root ≠ pf.storage_hash then .ok false
        else if account.code_hash ≠ pf.code_hash then .ok false
        else .ok true

/-- verify_storage_proof of src/proof/mod.rs (ProofGenerator): verify a
storage slot proof against a storage root.  Walk errors are rerr outcomes;
the storage value decoder can also crash. -/
def verify_storage_proof (storage_root : List Nat) (pf : StorageProofData) : Except RunErr Bool :=
  if pf.proof = [] then
    if pf.value = 0 ∧ storage_root = EMPTY_ROOT_HASH then .ok true
    else .ok false
  else
    let key := keccak256 pf.key
    match verify_mpt_proof storage_root key pf.proof with
    | .error e => .error e
    | .ok none =>
      if pf.value = 0 then .ok true
      else .ok false
    | .ok (some value) =>
      match decode_storage_value value with
      | .error e => .error e
      | .ok decodedValue =>
        if decodedValue ≠ pf.value then .ok false
        else .ok true

/-! ## eth_getBalance handler (src/rpc/handlers.rs), post-parse control flow.
The asynchronous consensus and upstream interactions are abstracted by their
outcomes; the JSON envelope is abstracted away.  The -32602 and -32603 codes
are those of RpcError::invalid_params and RpcError::internal in
src/types.rs. -/

/-- Authenticated head of src/types.rs (ConsensusProof). -/
structure ConsensusProof where
  state_root : List Nat
  slot : Nat
  block_number : Nat

/-- Outcome of state.consensus and get_consensus_proof in the handler:
consensus disabled, a fetched head, or a failed fetch. -/
inductive ConsensusFetch where
  | disabled
  | fetched (cp : ConsensusProof)
  | failed

/-- Outcome of the upstream eth_getProof fetch. -/
inductive UpstreamFetch where
  | fetched (pd : ProofData)
  | failed

/-- Reply shape of the handler: a JSON-RPC error with its code, a result
carrying the balance and whether the proof extension was attached, or an
aborted request: a Rust panic inside verification is not an Err value, it
unwinds the handler task and no JSON reply is built. -/
inductive RpcReply where
  | rpcError (code : Int) (msg : String)
  | balanceResult (balance : Nat) (withProof : Bool)
  | crashed (msg : String)
deriving DecidableEq

/-- eth_get_balance of src/rpc/handlers.rs after successful parameter
parsing.  A failed consensus fetch is logged and mapped to None, exactly as
the disabled case; verification runs only when a head was fetched. -/
def eth_get_balance (consensus : ConsensusFetch) (upstream : UpstreamFetch)
    (include_proof : Bool) : RpcReply :=
  let consensus_proof : Option ConsensusProof :=
    match consensus with
    | .disabled => none
    | .fetched cp => some cp
    | .failed => none
  match upstream with
  | .failed => .rpcError (-32603) "Failed to fetch proof"
  | .fetched proof_data =>
    let verdict : Option RpcReply :=
      match consensus_proof with
      | some cp =>
        match verify_account_proof cp.state_root proof_data with
        | .ok true => none
        | .ok false =>
          some (.rpcError (-32603) "Proof verification failed - data integrity check failed")
        | .error (.rerr _) => some (.rpcError (-32603) "Proof verification error")
        | .error (.crash m) => some (.crashed m)
      | none => none
    match verdict with
    | some e => e
    | none =>
      if include_proof then
        match consensus_proof with
        | some _ => .balanceResult proof_data.balance true
        | none => .balanceResult proof_data.balance false
      else .balanceResult proof_data.balance false

/-! ## Claim-side specification definitions -/

/-- Leaf flag as the claim states it: bit 1 of the flag nibble. -/
def hpClaimIsLeaf (b0 : Nat) : Bool :=
  ((b0 >>> 4) &&& 2) != 0

/-- Path nibbles as the claim states them: the low nibble of the first byte
exactly when the flag nibble is odd, then the high and low nibbles of each
subsequent byte in order. -/
def hpClaimPath (b0 : Nat) (rest : List Nat) : List Nat :=
  (if ((b0 >>> 4) &&& 1) != 0 then [b0 &&& 15] else [])
    ++ (rest.map (fun b => [b >>> 4, b &&& 15])).flatten

/-- Truncation as the claim states it: a declared length overruns the
remaining input, including a truncated length field. -/
def rlpItemTruncated (data : List Nat) : Bool :=
  match data with
  | [] => false
  | pfx :: _ =>
    if pfx ≤ 0x7f then false
    else if pfx ≤ 0xb7 then decide (data.length < 1 + (pfx - 0x80))
    else if pfx ≤ 0xbf then
      let lb := pfx - 0xb7
      decide (data.length < 1 + lb)
        || decide (data.length < 1 + lb + beNat ((data.drop 1).take lb))
    else if pfx ≤ 0xf7 then decide (data.length < 1 + (pfx - 0xc0))
    else
      let lb := pfx - 0xf7
      decide (data.length < 1 + lb)
        || decide (data.length < 1 + lb + beNat ((data.drop 1).take lb))

/-! ## Concrete inputs used by the claim theorems -/

/-- Short embedded child reference stored in the branch node below. -/
def c1ChildRef : List Nat := List.replicate 14 0xaa

/-- Branch node (17 items): a 14-byte embedded child at nibble 0, all other
children and the value slot empty.  32 bytes long. -/
def c1Branch : List Nat := [0xdf, 0x8e] ++ c1ChildRef ++ List.replicate 16 0x80

/-- Leaf node holding value 0x42 for the remaining 63 zero nibbles.
36 bytes long, unrelated to the embedded child reference above. -/
def c1Leaf : List Nat := [0xe2, 0xa0, 0x30] ++ List.replicate 31 0 ++ [0x42]

/-- A 3-byte first proof node: a 2-item list with an even leaf path of zero
nibbles and a 1-byte value.  Its path never matches a 64-nibble key. -/
def c2Node : List Nat := [0xc2, 0x20, 0x41]

/-- The same node with its value byte mutated. -/
def c2Tampered : List Nat := [0xc2, 0x20, 0x42]

/-- All-default claimed account fields with an empty account proof. -/
def defaultProofData : ProofData :=
  { address := List.replicate 20 0
    balance := 0
    code_hash := EMPTY_CODE_HASH
    nonce := 0
    storage_hash := EMPTY_ROOT_HASH
    account_proof := []
    storage_proof := [] }

/-- Address used by the account decode-failure run. -/
def c5Addr : List Nat := List.replicate 20 0

/-- State trie key of that address. -/
def c5Key : List Nat := keccak256 c5Addr

/-- Leaf node mapping the full key to the empty value byte string, which is
not a decodable account record. -/
def c5Leaf : List Nat := [0xe3, 0xa1, 0x20] ++ c5Key ++ [0x80]

/-- Proof data whose single-node account proof walks to the empty value. -/
def c5ProofData : ProofData :=
  { address := c5Addr
    balance := 0
    code_hash := EMPTY_CODE_HASH
    nonce := 0
    storage_hash := EMPTY_ROOT_HASH
    account_proof := [c5Leaf]
    storage_proof := [] }

/-- Storage trie slot key used by the storage decode run. -/
def c6Slot : List Nat := List.replicate 32 0

/-- Storage trie key of that slot. -/
def c6Key : List Nat := keccak256 c6Slot

/-- Trie value whose RLP payload declares 33 bytes of 0xff: wider than
256 bits. -/
def c6Value : List Nat := 0xa1 :: List.replicate 33 0xff

/-- Storage leaf mapping the full key to that over-wide value. -/
def c6Leaf : List Nat := [0xf8, 0x45, 0xa1, 0x20] ++ c6Key ++ [0xa2] ++ c6Value

/-- Storage slot proof carrying the over-wide value. -/
def c6SlotProof : StorageProofData :=
  { key := c6Slot, value := 0, proof := [c6Leaf] }

/-- Concrete upstream proof data for the handler run. -/
def c4ProofData : ProofData :=
  { address := List.replicate 20 0x11
    balance := 7
    code_hash := EMPTY_CODE_HASH
    nonce := 0
    storage_hash := EMPTY_ROOT_HASH
    account_proof := [c2Node]
    storage_proof := [] }

/-- Long-string RLP item whose 8-byte length field holds 2 to the 64 minus
one: the usize total-length sum overflows. -/
def c9Overflow : List Nat := 0xbf :: List.replicate 8 0xff

deriving instance DecidableEq for Except

/-! ## Helper lemmas -/

theorem shiftRight4_eq_div (b : Nat) : b >>> 4 = b / 16 := by
  rw [Nat.shiftRight_eq_div_pow]

theorem and15_eq_mod (b : Nat) : b &&& 15 = b % 16 := by
  have h := Nat.and_pow_two_sub_one_eq_mod b 4
  simpa using h

theorem and1_eq_mod (b : Nat) : b &&& 1 = b % 2 :=
  Nat.and_pow_two_sub_one_eq_mod b 1

theorem mul256_lor_eq_add (acc b : Nat) (hb : b < 256) : (acc * 256) ||| b = acc * 256 + b := by
  have h : 2 ^ 8 * acc + b = 2 ^ 8 * acc ||| b := Nat.mul_add_lt_is_or (by omega) acc
  rw [show acc * 256 = 2 ^ 8 * acc by ring]
  exact h.symm

theorem foldOr_eq_foldMul (l : List Nat) :
    ∀ acc, (∀ b ∈ l, b < 256) → acc < 2 ^ (64 - 8 * l.length) → 8 * l.length ≤ 64 →
      l.foldl (fun a b => ((a <<< 8) % 2 ^ 64) ||| b) acc = l.foldl (fun a b => a * 256 + b) acc := by
  induction l with
  | nil => intro acc _ _ _; rfl
  | cons b t ih =>
    intro acc hb hacc hlen
    simp only [List.foldl_cons]
    have hb256 : b < 256 := hb b (by simp)
    have hlen8 : 8 * t.length ≤ 56 := by
      simp only [List.length_cons] at hlen; omega
    have hexp : 64 - 8 * (b :: t).length = 56 - 8 * t.length := by
      simp only [List.length_cons]; omega
    rw [hexp] at hacc
    have hacc2 : acc * 256 + b < 2 ^ (64 - 8 * t.length) := by
      have he : 2 ^ (56 - 8 * t.length) * 256 = 2 ^ (64 - 8 * t.length) := by
        rw [show (256 : Nat) = 2 ^ 8 by norm_num, ← pow_add]
        congr 1
        omega
      have : acc * 256 + 256 ≤ 2 ^ (56 - 8 * t.length) * 256 := by
        have := Nat.succ_le_of_lt hacc
        calc acc * 256 + 256 = (acc + 1) * 256 := by ring
          _ ≤ 2 ^ (56 - 8 * t.length) * 256 := Nat.mul_le_mul_right 256 this
      omega
    have hmodlt : acc * 256 < 2 ^ 64 := by
      have h64 : 2 ^ (64 - 8 * t.length) ≤ 2 ^ 64 := Nat.pow_le_pow_right (by norm_num) (by omega)
      omega
    have hshift : acc <<< 8 = acc * 256 := by
      rw [Nat.shiftLeft_eq]
    rw [hshift, Nat.mod_eq_of_lt hmodlt, mul256_lor_eq_add acc b hb256]
    exact ih (acc * 256 + b) (fun x hx => hb x (by simp [hx])) hacc2 (by omega)

theorem bytes_to_usize_eval (l : List Nat) (h8 : l.length ≤ 8) (hb : ∀ b ∈ l, b < 256) :
    bytes_to_usize l = .ok (beNat l) := by
  unfold bytes_to_usize beNat
  rw [if_neg (by omega)]
  congr 1
  exact foldOr_eq_foldMul l 0 hb (Nat.pos_pow_of_pos _ (by norm_num)) (by omega)

theorem keccak256_empty_eq : keccak256 [] = EMPTY_CODE_HASH := by decide

theorem keccak256_rlp_empty_eq : keccak256 [0x80] = EMPTY_ROOT_HASH := by decide

/-! ## Claim theorems -/

/-- C7: for every root and key, verify_mpt_proof with an empty proof list
returns the proven-absent verdict (none) if and only if the root is the
empty trie root, and fails with a proof error for every other root. -/
theorem verify_mpt_proof_empty_proof_verdict (root key : List Nat) :
    (verify_mpt_proof root key [] = .ok none ↔ root = EMPTY_ROOT_HASH)
    ∧ (root ≠ EMPTY_ROOT_HASH →
        verify_mpt_proof root key [] = .error (.rerr "Empty proof for non-empty root")) := by
  unfold verify_mpt_proof
  by_cases h : root = EMPTY_ROOT_HASH <;> simp [h]

/-- Witness for C7 at a concrete non-empty root: the all-zero root with an
empty proof is rejected with the proof error. -/
theorem verify_mpt_proof_empty_proof_verdict_witness :
    verify_mpt_proof (List.replicate 32 0) (List.replicate 32 0) [] =
      .error (.rerr "Empty proof for non-empty root") :=
  (verify_mpt_proof_empty_proof_verdict (List.replicate 32 0) (List.replicate 32 0)).2 (by decide)

/-- C3 counterexample: with the empty trie root as state root, all-default
claimed fields and an empty account-proof node list, verify_account_proof
returns false, not true as the claim states; the empty-proof guard at the
top of the function rejects the proof before the trie walk can return the
proven-absent verdict. -/
theorem verify_account_proof_empty_counterexample :
    verify_account_proof EMPTY_ROOT_HASH defaultProofData = .ok false := rfl

/-- C3 amended: for every state root and every proof whose account-proof
node list is empty, verify_account_proof returns false, regardless of the
claimed account fields. -/
theorem verify_account_proof_empty_proof_false (state_root : List Nat) (pd : ProofData)
    (h : pd.account_proof = []) :
    verify_account_proof state_root pd = .ok false := by
  unfold verify_account_proof
  simp [h]

/-- Witness for the amended C3 at a concrete input. -/
theorem verify_account_proof_empty_proof_false_witness :
    verify_account_proof (List.replicate 32 0) defaultProofData = .ok false :=
  verify_account_proof_empty_proof_false (List.replicate 32 0) defaultProofData rfl

/-- C4 counterexample: with consensus verification enabled but the consensus
head fetch failing, and the upstream fetch succeeding, the handler returns the
upstream balance unverified instead of the -32603 internal error the claim
requires. -/
theorem eth_get_balance_consensus_failure_counterexample :
    eth_get_balance .failed (.fetched c4ProofData) true = .balanceResult 7 false
    ∧ ∀ code msg, eth_get_balance .failed (.fetched c4ProofData) true ≠ .rpcError code msg := by
  refine ⟨rfl, fun code msg h => ?_⟩
  exact RpcReply.noConfusion h

/-- C4 amended: when the consensus head fetch fails, the handler maps the
failure to the same state as consensus-disabled operation, skips proof
verification entirely, and returns the upstream balance without the proof
extension; the -32603 error is produced only for upstream-fetch failures or
for verification that ran and failed. -/
theorem eth_get_balance_consensus_failure_passthrough (pd : ProofData) (include_proof : Bool) :
    eth_get_balance .failed (.fetched pd) include_proof = .balanceResult pd.balance false := by
  cases include_proof <;> rfl

/-- C8 counterexample: on the single-byte input 0x40 the flag nibble is 4,
whose bit 1 is clear, so the claim predicts a non-leaf; decode_hp_path
classifies every flag nibble of at least 2 as a leaf and returns true. -/
theorem decode_hp_path_flag_counterexample :
    decode_hp_path [0x40] = .ok ([], true) ∧ hpClaimIsLeaf 0x40 = false := by
  decide

/-- C8 amended: for every non-empty input the decoded path is the low nibble
of the first byte exactly when the flag nibble is odd, followed by the high
and low nibbles of each subsequent byte in order, and the leaf flag is true
exactly when the flag nibble is at least 2 (rather than testing its bit 1);
empty input returns the empty path and the extension flag. -/
theorem decode_hp_path_semantics :
    (∀ b0 rest, decode_hp_path (b0 :: rest) = .ok (hpClaimPath b0 rest, decide (2 ≤ b0 >>> 4)))
    ∧ decode_hp_path [] = .ok ([], false) := by
  refine ⟨fun b0 rest => ?_, rfl⟩
  unfold decode_hp_path hpClaimPath
  have hmap : rest.map (fun b => [b >>> 4, b &&& 15]) = rest.map (fun b => [b / 16, b % 16]) := by
    apply List.map_congr_left
    intro b _
    rw [shiftRight4_eq_div, and15_eq_mod]
  rw [hmap, shiftRight4_eq_div, and15_eq_mod]
  have hodd : (((b0 / 16) &&& 1) != 0) = decide ((b0 / 16) % 2 = 1) := by
    rw [and1_eq_mod]
    rcases Nat.mod_two_eq_zero_or_one (b0 / 16) with h | h <;> simp [h]
  rw [hodd]

/-- C10: decode_hp_path is total on byte strings: it always succeeds, and
every nibble of the returned path is below 16. -/
theorem decode_hp_path_total (encoded : List Nat) (hb : ∀ b ∈ encoded, b < 256) :
    ∃ path lf, decode_hp_path encoded = .ok (path, lf) ∧ ∀ n ∈ path, n < 16 := by
  cases encoded with
  | nil => exact ⟨[], false, rfl, by simp⟩
  | cons b0 rest =>
    refine ⟨_, _, rfl, ?_⟩
    intro n hn
    rcases List.mem_append.mp hn with h | h
    · have hmem : n ∈ [b0 % 16] := by
        by_cases ho : decide (b0 / 16 % 2 = 1) = true
        · simpa [ho] using h
        · simp [eq_false_of_ne_true ho] at h
      have : n = b0 % 16 := by simpa using hmem
      subst this
      exact Nat.mod_lt _ (by norm_num)
    · rcases List.mem_flatten.mp h with ⟨l, hl, hnl⟩
      rcases List.mem_map.mp hl with ⟨b, hbm, rfl⟩
      have hblt : b < 256 := hb b (by simp [hbm])
      simp only [List.mem_cons, List.not_mem_nil, or_false] at hnl
      rcases hnl with h1 | h1
      · subst h1
        exact Nat.div_lt_of_lt_mul (by omega)
      · subst h1
        exact Nat.mod_lt _ (by norm_num)

/-- Witness for C10 at a concrete input. -/
theorem decode_hp_path_total_witness :
    ∃ path lf, decode_hp_path [0x3a, 0xbc] = .ok (path, lf) ∧ ∀ n ∈ path, n < 16 :=
  decode_hp_path_total [0x3a, 0xbc] (by decide)

/-- C2 (failing run): the first proof node, when shorter than 32 bytes, is
never compared against the root, so mutating its value byte neither causes a
proof error nor changes the proven-absent verdict: both the original and the
tampered run return the same verdict under the same (arbitrary) root. -/
theorem verify_mpt_proof_silent_tamper :
    verify_mpt_proof (List.replicate 32 0) (List.replicate 32 0) [c2Node] = .ok none
    ∧ verify_mpt_proof (List.replicate 32 0) (List.replicate 32 0) [c2Tampered] = .ok none
    ∧ c2Node ≠ c2Tampered
    ∧ c2Node.length = c2Tampered.length := by
  refine ⟨rfl, rfl, by decide, rfl⟩

/-- C1 (failing run): after a branch node whose addressed child reference is
a non-empty string shorter than 32 bytes, the walker accepts any subsequent
proof entry: it sets the expected hash to the keccak of the next entry
itself, so the hash comparison on that entry is vacuous.  The run below
returns a value from a 36-byte node that does not hash to the embedded
child reference extracted from the branch that preceded it. -/
theorem verify_mpt_proof_accepts_unlinked_node :
    verify_mpt_proof (keccak256 c1Branch) (List.replicate 32 0) [c1Branch, c1Leaf]
        = .ok (some [0x42])
    ∧ decode_rlp_list c1Branch = .ok (c1ChildRef :: List.replicate 16 [])
    ∧ 32 ≤ c1Leaf.length
    ∧ keccak256 c1Leaf ≠ c1ChildRef := by
  refine ⟨rfl, rfl, by decide, by decide⟩

/-- C5 counterexample: a single-node account proof walks to the empty value
byte string, which is not a decodable account record, and
verify_account_proof returns false rather than propagating a decode error as
the claim states. -/
theorem verify_account_proof_decode_failure_counterexample :
    verify_mpt_proof (keccak256 c5Leaf) (keccak256 c5ProofData.address) c5ProofData.account_proof
        = .ok (some [])
    ∧ (AccountState.decode []).isOk = false
    ∧ verify_account_proof (keccak256 c5Leaf) c5ProofData = .ok false := by
  refine ⟨rfl, rfl, rfl⟩

/-- C5 amended: whenever the account-proof walk returns a value whose
account-record decoding fails, verify_account_proof returns false (the same
verdict as a field mismatch), not an error. -/
theorem verify_account_proof_decode_failure_false (state_root : List Nat) (pd : ProofData)
    (v : List Nat)
    (hne : pd.account_proof ≠ [])
    (hwalk : verify_mpt_proof state_root (keccak256 pd.address) pd.account_proof = .ok (some v))
    (hdec : (AccountState.decode v).isOk = false) :
    verify_account_proof state_root pd = .ok false := by
  cases hd : AccountState.decode v with
  | error e => simp [verify_account_proof, hne, hwalk, hd]
  | ok a =>
    rw [hd] at hdec
    exact Bool.noConfusion hdec

/-- Witness for the amended C5 at the concrete decode-failure run. -/
theorem verify_account_proof_decode_failure_false_witness :
    verify_account_proof (keccak256 c5Leaf) c5ProofData = .ok false :=
  verify_account_proof_decode_failure_false (keccak256 c5Leaf) c5ProofData []
    (by simp [c5ProofData]) rfl rfl

/-- C6 (failing run): a storage value whose RLP payload declares 33 bytes of
0xff reaches U256 from_be_slice with a value wider than 256 bits, which
aborts (a Rust panic) instead of returning an error: decode_storage_value
and verify_storage_proof both end in the crash outcome, contradicting the
claim that the storage path never panics and rejects over-wide values with
an error. -/
theorem decode_storage_value_crash :
    decode_storage_value c6Value = .error (.crash "U256 from_be_slice overflow")
    ∧ verify_storage_proof (keccak256 c6Leaf) c6SlotProof
        = .error (.crash "U256 from_be_slice overflow") := by
  refine ⟨rfl, rfl⟩

/-- C9 (failing run): on a long-string item whose 8-byte length field holds
2 to the 64 minus one, the big-endian length itself is read correctly, the
input is truncated in the sense of the claim (the declared length overruns
the remaining 8 bytes), but the usize sum 1 + len_bytes + len overflows and
the Rust code panics (debug: addition overflow; release: reversed slice
bounds) instead of failing with the DecodeError the claim and the spec
require. -/
theorem decode_rlp_item_length_overflow_crash :
    decode_rlp_item c9Overflow = .error (.crash "usize overflow in RLP length")
    ∧ bytes_to_usize (List.replicate 8 0xff) = .ok (2 ^ 64 - 1)
    ∧ rlpItemTruncated c9Overflow = true := by
  refine ⟨rfl, rfl, by decide⟩
